import Mathlib

/-!
# Verification of `check_mint.py`

Shallow embedding of the diagnostic script `src/check_mint.py`.  The script

1. derives a program-derived account address (PDA) from the fixed seed list
   `[b"mint"]` and a fixed program identifier via the solders library call
   `Pubkey.find_program_address`;
2. invokes the external CLI `solana account <addr> --output json` as a
   synchronous subprocess;
3. on exit code zero parses stdout as JSON and prints the `owner` field and
   the parsed structure; on non-zero exit code prints stderr; any exception
   raised inside the `try` block is caught and printed.

The derivation routine lives in the third-party solders library, outside this
repository, so it is modelled from the spec (bump search from 255 downward,
first candidate failing the on-curve check).  The Python standard-library
pieces the script calls (`json.loads`, `subprocess.run`, `str` on a pubkey)
are likewise outside the repository and are abstracted as parameters of the
embedding; the control flow, branching, argument construction and printed
text of the script itself are translated line by line.
-/

/-- Bytes of an address; a 32-byte value is a list of byte values. -/
abbrev Addr := List Nat

/-- Modelled from the spec: the bump search of `Pubkey.find_program_address`
(solders library, not part of this repository).  Scans discriminator values
from `start` downward to 0 and returns the first candidate address that fails
the on-curve check, together with its bump; `none` when the scan exhausts. -/
def findBumpFrom (onCurve : Addr → Bool) (cand : Nat → Addr) : Nat → Option (Addr × Nat)
  | 0 => if onCurve (cand 0) then none else some (cand 0, 0)
  | b + 1 => if onCurve (cand (b + 1)) then findBumpFrom onCurve cand b
             else some (cand (b + 1), b + 1)

/-- Modelled from the spec: `Pubkey.find_program_address` (solders library,
not part of this repository).  The candidate-address construction (a hash of
the seeds, the bump byte and the program identifier) and the elliptic-curve
membership check are abstracted as the parameters `cand` and `onCurve`; the
search scans bumps from 255 downward and selects the first off-curve
candidate. -/
def findProgramAddress (onCurve : Addr → Bool)
    (cand : List Addr → Nat → Addr → Addr)
    (seeds : List Addr) (programId : Addr) : Option (Addr × Nat) :=
  findBumpFrom onCurve (fun b => cand seeds b programId) 255

/-- The error message signalled when the bump search exhausts. -/
def pdaExhaustMsg : String := "Unable to find a viable program address bump seed"

/-- Modelled from the spec: the error-signalling wrapper of the derivation —
an exhausted search signals an error instead of returning an address. -/
def findProgramAddressChecked (onCurve : Addr → Bool)
    (cand : List Addr → Nat → Addr → Addr)
    (seeds : List Addr) (programId : Addr) : Except String (Addr × Nat) :=
  match findProgramAddress onCurve cand seeds programId with
  | some p => .ok p
  | none => .error pdaExhaustMsg

/-- The fixed seed list `SEEDS = [b"mint"]` of the script: the byte values of
the ASCII string "mint". -/
def SEEDS : List Addr := [[109, 105, 110, 116]]

/-! ## The JSON data model and Python rendering

`json.loads` returns `None`, booleans, numbers, strings, lists or dicts; the
script prints them through Python `str`, which is `repr` on everything except
top-level strings. -/

inductive Json where
  | null : Json
  | bool (b : Bool) : Json
  | num (n : Int) : Json
  | str (s : String) : Json
  | arr (elems : List Json) : Json
  | obj (fields : List (String × Json)) : Json
deriving Repr

mutual

/-- Python `repr` of a JSON-decoded value, as the f-string `{data}` renders a
dict: `None`/`True`/`False`, decimal integers, single-quoted strings,
`[ ... ]` lists and `{'k': v, ...}` dicts. -/
def pyRepr : Json → String
  | .null => "None"
  | .bool true => "True"
  | .bool false => "False"
  | .num n => toString n
  | .str s => "'" ++ s ++ "'"
  | .arr elems => "[" ++ String.intercalate ", " (pyReprList elems) ++ "]"
  | .obj fields => "\x7b" ++ String.intercalate ", " (pyReprFields fields) ++ "\x7d"

def pyReprList : List Json → List String
  | [] => []
  | x :: xs => pyRepr x :: pyReprList xs

def pyReprFields : List (String × Json) → List String
  | [] => []
  | (k, v) :: kvs => ("'" ++ k ++ "': " ++ pyRepr v) :: pyReprFields kvs

end

/-- Python `str` of a JSON-decoded value: identical to `repr` except that a
string renders without quotes. -/
def pyStr : Json → String
  | .str s => s
  | j => pyRepr j

/-- Python `str` of an `Option` result of `dict.get`: `None` renders as
"None". -/
def pyStrOpt : Option Json → String
  | none => "None"
  | some j => pyStr j

/-- Python `dict.get` on the decoded fields: Python dicts keep the last
binding of a duplicated key, so lookup takes the last matching entry. -/
def dictGet (fields : List (String × Json)) (key : String) : Option Json :=
  (fields.reverse.find? (fun kv => kv.1 == key)).map (·.2)

/-- Python type name of a JSON-decoded value, as it appears in the
`AttributeError` raised by `data.get` when `data` is not a dict. -/
def pyTypeName : Json → String
  | .null => "NoneType"
  | .bool _ => "bool"
  | .num _ => "int"
  | .str _ => "str"
  | .arr _ => "list"
  | .obj _ => "dict"

/-! ## The script -/

/-- The captured result of `subprocess.run(..., capture_output=True, text=True)`. -/
structure SubprocessResult where
  returncode : Int
  stdout : String
  stderr : String
deriving Repr, DecidableEq

/-- Outcome of the subprocess call: either a captured result, or an exception
raised by `subprocess.run` itself (e.g. `FileNotFoundError` when the tool is
missing), carrying the exception's message. -/
inductive ToolOutcome where
  | ok (r : SubprocessResult) : ToolOutcome
  | raised (msg : String) : ToolOutcome
deriving Repr, DecidableEq

/-- The fixed argument list of the subprocess call at lines 14–18:
`["solana", "account", str(mint_pda), "--output", "json"]`. -/
def solanaCommand (addr : String) : List String :=
  ["solana", "account", addr, "--output", "json"]

/-- The body of the `try` block (lines 13–26) once the subprocess outcome is
known, producing the printed lines.  `loads` abstracts `json.loads`
(standard library, outside this repository): `.error msg` is a raised
`json.JSONDecodeError` whose `str` is `msg`.  On a decoded non-dict,
`data.get` raises an `AttributeError`; both raises are caught by the
`except` clause, which prints `f"Exception: {e}"`. -/
def handleOutcome (loads : String → Except String Json) (outcome : ToolOutcome) :
    List String :=
  match outcome with
  | .raised msg => ["Exception: " ++ msg]
  | .ok r =>
    if r.returncode = 0 then
      match loads r.stdout with
      | .error msg => ["Exception: " ++ msg]
      | .ok data =>
        match data with
        | .obj fields =>
          ["Owner: " ++ pyStrOpt (dictGet fields "owner"),
           "Data: " ++ pyRepr (.obj fields)]
        | other =>
          ["Exception: '" ++ pyTypeName other ++ "' object has no attribute 'get'"]
    else
      ["Error getting account: " ++ r.stderr]

/-- Result of running the whole script: a normal termination with the printed
lines, or a crash by an uncaught exception. -/
inductive ScriptResult where
  | finished (lines : List String) : ScriptResult
  | crashed (msg : String) : ScriptResult
deriving Repr, DecidableEq

/-- Whether the script run ended in a crash. -/
def ScriptResult.isCrashed : ScriptResult → Bool
  | .crashed _ => true
  | .finished _ => false

/-- The whole script (lines 9–26).  `derive` is the (possibly failing)
derivation at line 9, which sits OUTSIDE the `try` block: its error
propagates as a crash.  `toStr` abstracts `str` on a pubkey (base58
rendering, solders library); `execTool` abstracts `subprocess.run` applied to
an argument list.  On success the script prints `Mint Address: ...` and then
runs the `try` block on the outcome of the fixed solana command applied to
the derived address. -/
def runScript (derive : Except String (Addr × Nat)) (toStr : Addr → String)
    (execTool : List String → ToolOutcome)
    (loads : String → Except String Json) : ScriptResult :=
  match derive with
  | .error msg => .crashed msg
  | .ok (pda, _bump) =>
    .finished (("Mint Address: " ++ toStr pda) ::
      handleOutcome loads (execTool (solanaCommand (toStr pda))))

/-! ## Search lemmas -/

/-- Any hit of the bump search is off-curve, is the candidate at its bump,
lies within the scanned range, and is the first hit scanned downward: every
larger bump still in range is on-curve. -/
theorem findBumpFrom_spec (onCurve : Addr → Bool) (cand : Nat → Addr) :
    ∀ start a b, findBumpFrom onCurve cand start = some (a, b) →
      onCurve a = false ∧ a = cand b ∧ b ≤ start ∧
      ∀ b', b < b' → b' ≤ start → onCurve (cand b') = true := by
  intro start
  induction start with
  | zero =>
    intro a b h
    by_cases hc : onCurve (cand 0) = true
    · simp [findBumpFrom, hc] at h
    · simp only [Bool.not_eq_true] at hc
      simp [findBumpFrom, hc] at h
      obtain ⟨ha, hb⟩ := h
      subst ha
      subst hb
      exact ⟨hc, rfl, Nat.le_refl 0, fun b' hb1 hb2 => by omega⟩
  | succ n ih =>
    intro a b h
    by_cases hc : onCurve (cand (n + 1)) = true
    · simp only [findBumpFrom] at h
      rw [if_pos hc] at h
      obtain ⟨hoff, heq, hle, hfirst⟩ := ih a b h
      refine ⟨hoff, heq, Nat.le_succ_of_le hle, ?_⟩
      intro b' hb1 hb2
      rcases Nat.lt_succ_iff_lt_or_eq.mp (Nat.lt_succ_of_le hb2) with h' | h'
      · exact hfirst b' hb1 (Nat.lt_succ_iff.mp h')
      · exact h' ▸ hc
    · simp only [Bool.not_eq_true] at hc
      simp [findBumpFrom, hc] at h
      obtain ⟨ha, hb⟩ := h
      subst ha
      subst hb
      exact ⟨hc, rfl, Nat.le_refl _, fun b' hb1 hb2 => by omega⟩

/-- The bump search returns `none` exactly when every candidate in the
scanned range is on-curve. -/
theorem findBumpFrom_none_iff (onCurve : Addr → Bool) (cand : Nat → Addr) :
    ∀ start, findBumpFrom onCurve cand start = none ↔
      ∀ b, b ≤ start → onCurve (cand b) = true := by
  intro start
  induction start with
  | zero =>
    constructor
    · intro h b hb
      interval_cases b
      by_contra hc
      simp only [Bool.not_eq_true] at hc
      simp [findBumpFrom, hc] at h
    · intro h
      simp [findBumpFrom, h 0 (Nat.le_refl 0)]
  | succ n ih =>
    constructor
    · intro h b hb
      by_cases hc : onCurve (cand (n + 1)) = true
      · simp only [findBumpFrom] at h
        rw [if_pos hc] at h
        rcases Nat.lt_succ_iff_lt_or_eq.mp (Nat.lt_succ_of_le hb) with h' | h'
        · exact ih.mp h b (Nat.lt_succ_iff.mp h')
        · exact h' ▸ hc
      · simp only [Bool.not_eq_true] at hc
        simp [findBumpFrom, hc] at h
    · intro h
      have hc := h (n + 1) (Nat.le_refl _)
      simp only [findBumpFrom]
      rw [if_pos hc]
      exact ih.mpr (fun b hb => h b (Nat.le_succ_of_le hb))

/-- The search halts with `some` exactly when some candidate in range is
off-curve. -/
theorem findBumpFrom_isSome_iff (onCurve : Addr → Bool) (cand : Nat → Addr)
    (start : Nat) :
    (∃ a b, findBumpFrom onCurve cand start = some (a, b)) ↔
      ∃ b, b ≤ start ∧ onCurve (cand b) = false := by
  constructor
  · rintro ⟨a, b, h⟩
    obtain ⟨hoff, heq, hle, _⟩ := findBumpFrom_spec onCurve cand start a b h
    exact ⟨b, hle, heq ▸ hoff⟩
  · rintro ⟨b, hle, hoff⟩
    rcases h : findBumpFrom onCurve cand start with _ | ⟨a', b'⟩
    · rw [findBumpFrom_none_iff] at h
      exact absurd (h b hle) (by simp [hoff])
    · exact ⟨a', b', rfl⟩

/-! ## Claims -/

/-- C1: address derivation is deterministic: for the fixed seed list
`SEEDS = [b"mint"]`, any two calls with the identical program identifier
return the identical address and the identical bump discriminator — the
derived address is a pure function of (program identifier, seeds). -/
theorem C1_derivation_deterministic
    (onCurve : Addr → Bool) (cand : List Addr → Nat → Addr → Addr)
    (programId programId' : Addr) (a a' : Addr) (b b' : Nat)
    (hpid : programId = programId')
    (h1 : findProgramAddress onCurve cand SEEDS programId = some (a, b))
    (h2 : findProgramAddress onCurve cand SEEDS programId' = some (a', b')) :
    a = a' ∧ b = b' := by
  subst hpid
  rw [h1] at h2
  simp only [Option.some.injEq, Prod.mk.injEq] at h2
  exact h2

/-- Witness for C1 at a concrete curve check, candidate map and program
identifier. -/
theorem C1_derivation_deterministic_witness : ([255] : Addr) = [255] ∧ 255 = 255 :=
  C1_derivation_deterministic (fun _ => false) (fun _ b _ => [b]) [1] [1]
    [255] [255] 255 255 rfl rfl rfl

/-- C2: for every program identifier (and any seeds), whenever derivation
returns an address, that address fails the on-curve check. -/
theorem C2_derived_address_off_curve
    (onCurve : Addr → Bool) (cand : List Addr → Nat → Addr → Addr)
    (seeds : List Addr) (programId : Addr) (a : Addr) (b : Nat)
    (h : findProgramAddress onCurve cand seeds programId = some (a, b)) :
    onCurve a = false :=
  (findBumpFrom_spec onCurve (fun k => cand seeds k programId) 255 a b h).1

/-- Witness for C2: a curve check that accepts only the address `[0]`;
derivation returns `[255]`, which the check rejects. -/
theorem C2_derived_address_off_curve_witness :
    (fun a : Addr => decide (a = [0])) [255] = false :=
  C2_derived_address_off_curve (fun a => decide (a = [0])) (fun _ b _ => [b])
    SEEDS [1] [255] 255 rfl

/-- C3: the returned bump is the first value, scanned from 255 downward, whose
candidate is off-curve: it lies in the scanned range, the returned address is
its candidate, that candidate is off-curve, and every larger bump in the range
has an on-curve candidate. -/
theorem C3_bump_first_off_curve_from_255
    (onCurve : Addr → Bool) (cand : List Addr → Nat → Addr → Addr)
    (seeds : List Addr) (programId : Addr) (a : Addr) (b : Nat)
    (h : findProgramAddress onCurve cand seeds programId = some (a, b)) :
    b ≤ 255 ∧ a = cand seeds b programId ∧
      onCurve (cand seeds b programId) = false ∧
      ∀ b', b < b' → b' ≤ 255 → onCurve (cand seeds b' programId) = true := by
  obtain ⟨hoff, heq, hle, hfirst⟩ :=
    findBumpFrom_spec onCurve (fun k => cand seeds k programId) 255 a b h
  exact ⟨hle, heq, heq ▸ hoff, hfirst⟩

/-- Witness for C3: a curve check that accepts only `[255]`; the search skips
bump 255 and stops at 254. -/
theorem C3_bump_first_off_curve_from_255_witness :
    254 ≤ 255 ∧ ([254] : Addr) = [254] ∧
      (fun a : Addr => decide (a = [255])) [254] = false ∧
      ∀ b', 254 < b' → b' ≤ 255 →
        (fun a : Addr => decide (a = [255])) [b'] = true :=
  C3_bump_first_off_curve_from_255 (fun a => decide (a = [255]))
    (fun _ b _ => [b]) SEEDS [1] [254] 254 (by decide)

/-- C8: derivation signals the exhaustion error exactly when all 256 bump
values (255 down to 0) give on-curve candidates; whenever some bump in range
is off-curve, derivation returns an address and bump. -/
theorem C8_error_iff_search_exhausted
    (onCurve : Addr → Bool) (cand : List Addr → Nat → Addr → Addr)
    (seeds : List Addr) (programId : Addr) :
    (findProgramAddressChecked onCurve cand seeds programId = .error pdaExhaustMsg ↔
      ∀ b, b ≤ 255 → onCurve (cand seeds b programId) = true) ∧
    ((∃ b, b ≤ 255 ∧ onCurve (cand seeds b programId) = false) →
      ∃ a b, findProgramAddressChecked onCurve cand seeds programId = .ok (a, b)) := by
  have hnone := findBumpFrom_none_iff onCurve (fun k => cand seeds k programId) 255
  have hsome := findBumpFrom_isSome_iff onCurve (fun k => cand seeds k programId) 255
  constructor
  · constructor
    · intro h
      apply hnone.mp
      rcases hx : findProgramAddress onCurve cand seeds programId with _ | p
      · exact hx
      · simp [findProgramAddressChecked, hx] at h
    · intro h
      have hx : findProgramAddress onCurve cand seeds programId = none := hnone.mpr h
      simp [findProgramAddressChecked, hx]
  · intro hex
    obtain ⟨a, b, hx⟩ := hsome.mpr hex
    exact ⟨a, b, by simp [findProgramAddressChecked, findProgramAddress, hx]⟩

/-- Witness for C8: with a curve check that accepts everything the search
exhausts and derivation signals the error. -/
theorem C8_error_iff_search_exhausted_witness :
    findProgramAddressChecked (fun _ => true) (fun _ b _ => [b]) SEEDS [1] =
      .error pdaExhaustMsg :=
  (C8_error_iff_search_exhausted (fun _ => true) (fun _ b _ => [b]) SEEDS [1]).1.mpr
    (fun _ _ => rfl)

/-- C4: on the success path — exit code zero and stdout decoding to a JSON
object with an `owner` field — the script prints exactly that owner value and
the full parsed structure. -/
theorem C4_success_path_prints_owner_and_data
    (loads : String → Except String Json) (r : SubprocessResult)
    (fields : List (String × Json)) (v : Json)
    (hrc : r.returncode = 0)
    (hjson : loads r.stdout = .ok (.obj fields))
    (howner : dictGet fields "owner" = some v) :
    handleOutcome loads (.ok r) =
      ["Owner: " ++ pyStr v, "Data: " ++ pyRepr (.obj fields)] := by
  simp [handleOutcome, hrc, hjson, howner, pyStrOpt]

/-- Witness for C4 at a concrete decoder and subprocess result. -/
theorem C4_success_path_prints_owner_and_data_witness :
    handleOutcome (fun _ => .ok (.obj [("owner", .str "TokenProg")]))
        (.ok ⟨0, "", ""⟩) =
      ["Owner: TokenProg", "Data: \x7b'owner': 'TokenProg'\x7d"] :=
  C4_success_path_prints_owner_and_data
    (fun _ => .ok (.obj [("owner", .str "TokenProg")])) ⟨0, "", ""⟩
    [("owner", .str "TokenProg")] (.str "TokenProg") rfl rfl rfl

/-- C5: on the failure path — non-zero exit code — the script prints one line
carrying the tool's stderr verbatim, raises nothing, and never parses stdout
(the output is the same for every decoder and every stdout). -/
theorem C5_failure_path_prints_stderr
    (loads : String → Except String Json) (r : SubprocessResult)
    (hrc : r.returncode ≠ 0) :
    handleOutcome loads (.ok r) = ["Error getting account: " ++ r.stderr] := by
  simp [handleOutcome, hrc]

/-- Witness for C5: stderr "boom" on exit code 1 prints a message containing
"boom". -/
theorem C5_failure_path_prints_stderr_witness :
    handleOutcome (fun _ => .error "never") (.ok ⟨1, "ignored", "boom"⟩) =
      ["Error getting account: boom"] :=
  C5_failure_path_prints_stderr (fun _ => .error "never")
    ⟨1, "ignored", "boom"⟩ (by decide)

/-- C6: an exception raised by the subprocess call (e.g. a missing tool) and a
JSON-decoding failure on exit code zero are each caught and reported as a
single generic `Exception:` message, and the script run terminates normally
(never crashes) whenever derivation succeeded. -/
theorem C6_exceptions_in_try_caught
    (loads : String → Except String Json) (r : SubprocessResult)
    (msg emsg : String)
    (hrc : r.returncode = 0) (hparse : loads r.stdout = .error emsg) :
    handleOutcome loads (.raised msg) = ["Exception: " ++ msg] ∧
    handleOutcome loads (.ok r) = ["Exception: " ++ emsg] ∧
    ∀ p toStr execTool, (runScript (.ok p) toStr execTool loads).isCrashed = false := by
  refine ⟨rfl, by simp [handleOutcome, hrc, hparse], ?_⟩
  intro p toStr execTool
  rcases p with ⟨pda, bump⟩
  rfl

/-- Witness for C6 at a concrete failing decoder. -/
theorem C6_exceptions_in_try_caught_witness :
    handleOutcome (fun _ => .error "Expecting value: line 1 column 1 (char 0)")
        (.raised "No such file or directory: 'solana'") =
      ["Exception: No such file or directory: 'solana'"] ∧
    handleOutcome (fun _ => .error "Expecting value: line 1 column 1 (char 0)")
        (.ok ⟨0, "not json", ""⟩) =
      ["Exception: Expecting value: line 1 column 1 (char 0)"] ∧
    ∀ p toStr execTool,
      (runScript (.ok p) toStr execTool
        (fun _ => .error "Expecting value: line 1 column 1 (char 0)")).isCrashed = false :=
  C6_exceptions_in_try_caught
    (fun _ => .error "Expecting value: line 1 column 1 (char 0)")
    ⟨0, "not json", ""⟩ "No such file or directory: 'solana'"
    "Expecting value: line 1 column 1 (char 0)" rfl rfl

set_option maxRecDepth 4000 in
/-- C7 counterexample: the claim that every exception is caught at the
outermost level — in particular an error signalled by address derivation —
fails: the derivation at line 9 sits outside the `try` block (lines 13–26),
so with a curve check under which the bump search exhausts, the script
crashes instead of terminating normally. -/
theorem C7_counterexample :
    runScript (findProgramAddressChecked (fun _ => true) (fun _ b _ => [b]) SEEDS [1])
        (fun _ => "") (fun _ => .ok ⟨0, "", ""⟩) (fun _ => .error "bad") =
      .crashed pdaExhaustMsg ∧
    (runScript (findProgramAddressChecked (fun _ => true) (fun _ b _ => [b]) SEEDS [1])
        (fun _ => "") (fun _ => .ok ⟨0, "", ""⟩) (fun _ => .error "bad")).isCrashed
      = true := by
  exact ⟨rfl, rfl⟩

/-- C7 amended: exceptions arising inside the `try` block are caught and the
script terminates normally whenever derivation succeeds; but an error
signalled by address derivation occurs before the `try` block and propagates
as a crash rather than being caught. -/
theorem C7_catch_covers_try_block_only
    (p : Addr × Nat) (toStr : Addr → String)
    (execTool : List String → ToolOutcome) (loads : String → Except String Json)
    (emsg : String) :
    (runScript (.ok p) toStr execTool loads).isCrashed = false ∧
    runScript (.error emsg) toStr execTool loads = .crashed emsg := by
  rcases p with ⟨pda, bump⟩
  exact ⟨rfl, rfl⟩

/-- C9: the script invokes the external tool with exactly the fixed argument
list — the `account` subcommand, the string form of the derived address as
the positional argument, and `--output json` — so the queried address is
precisely the address produced by derivation. -/
theorem C9_invokes_fixed_solana_command
    (onCurve : Addr → Bool) (cand : List Addr → Nat → Addr → Addr)
    (programId pda : Addr) (bump : Nat) (toStr : Addr → String)
    (execTool : List String → ToolOutcome) (loads : String → Except String Json)
    (hderive : findProgramAddressChecked onCurve cand SEEDS programId = .ok (pda, bump)) :
    runScript (findProgramAddressChecked onCurve cand SEEDS programId)
        toStr execTool loads =
      .finished (("Mint Address: " ++ toStr pda) ::
        handleOutcome loads
          (execTool ["solana", "account", toStr pda, "--output", "json"])) := by
  rw [hderive]
  rfl

/-- Witness for C9 at a concrete configuration: the derived address `[255]`,
rendered as "addr", is the positional argument of the recorded command. -/
theorem C9_invokes_fixed_solana_command_witness :
    runScript (findProgramAddressChecked (fun _ => false) (fun _ b _ => [b]) SEEDS [1])
        (fun _ => "addr")
        (fun args => .raised (String.intercalate " " args))
        (fun _ => .error "bad") =
      .finished (("Mint Address: " ++ (fun _ : Addr => "addr") [255]) ::
        handleOutcome (fun _ => .error "bad")
          ((fun args => .raised (String.intercalate " " args))
            ["solana", "account", (fun _ : Addr => "addr") [255], "--output", "json"])) :=
  C9_invokes_fixed_solana_command (fun _ => false) (fun _ b _ => [b]) [1] [255] 255
    (fun _ => "addr") (fun args => .raised (String.intercalate " " args))
    (fun _ => .error "bad") rfl

/-- C10 counterexample: on exit code zero with stdout `"[]"` — valid JSON
that lacks an `owner` key — the script does NOT print "Owner: None": the
attribute lookup `data.get` on a decoded list raises, and the `except` branch
prints an exception message instead. -/
theorem C10_counterexample :
    handleOutcome (fun s => if s == "[]" then .ok (.arr []) else .error "invalid")
        (.ok ⟨0, "[]", ""⟩) =
      ["Exception: 'list' object has no attribute 'get'"] ∧
    handleOutcome (fun s => if s == "[]" then .ok (.arr []) else .error "invalid")
        (.ok ⟨0, "[]", ""⟩) ≠
      ["Owner: None", "Data: []"] := by
  exact ⟨rfl, by decide⟩

/-- C10 amended: on exit code zero with stdout decoding to a JSON OBJECT that
lacks an `owner` key, the lookup is total and the script prints "Owner: None"
followed by the full parsed structure; for a decoded non-object the attribute
lookup raises and the script enters the exception branch. -/
theorem C10_missing_owner_on_object_prints_none
    (loads : String → Except String Json) (r : SubprocessResult)
    (fields : List (String × Json))
    (hrc : r.returncode = 0)
    (hjson : loads r.stdout = .ok (.obj fields))
    (howner : dictGet fields "owner" = none) :
    handleOutcome loads (.ok r) =
      ["Owner: None", "Data: " ++ pyRepr (.obj fields)] := by
  simp [handleOutcome, hrc, hjson, howner, pyStrOpt]

/-- Witness for C10's amended claim at a concrete object without an `owner`
key. -/
theorem C10_missing_owner_on_object_prints_none_witness :
    handleOutcome (fun _ => .ok (.obj [("lamports", .num 0)])) (.ok ⟨0, "", ""⟩) =
      ["Owner: None", "Data: \x7b'lamports': 0\x7d"] :=
  C10_missing_owner_on_object_prints_none
    (fun _ => .ok (.obj [("lamports", .num 0)])) ⟨0, "", ""⟩
    [("lamports", .num 0)] rfl rfl rfl
